import Mathlib

/-!
Verification development for the PaperTrading authentication subsystem
(`backend/internal/auth`: `middleware.go`, `token_store.go`, and the store
functions in the same package).

The Go code is shallowly embedded:
* the relational backend is a pair of in-memory lists (`users`, `tokens`);
  each store call additionally takes an optional injected backend fault
  (`Option GoErr`), modelling a failed query/exec round-trip;
* `crypto/sha256` and base64 URL-encoding are implemented concretely over
  `Nat` bytes (verified against the standard test vectors);
* `crypto/rand` is modelled by passing the random bytes (`entropy`) as an
  argument;
* bcrypt verification and the HMAC signature primitive of the JWT library
  are parameters (`BcryptCheck`, `HmacFun`): every theorem holds for every
  implementation of these primitives;
* the JWT wire format is modelled structurally (`JWTString`): a token is
  either malformed or a signed header/claims/signature triple, and
  `parseWithClaims` follows the jwt/v5 pipeline (keyfunc algorithm check,
  signature verification, then expiry / not-before claim validation);
* Go `error` values are the inductive `GoErr`, with `errors.Is`-style
  unwrapping (`GoErr.is`) and `errors.As`-style postgres-code extraction
  (`GoErr.pgCode`).
-/

set_option maxRecDepth 100000

namespace Auth

/-! ## SHA-256 over `Nat` bytes (crypto/sha256), and base64 URL encoding -/

def rotr32 (x n : Nat) : Nat :=
  ((x >>> n) ||| ((x <<< (32 - n)) % 4294967296))

def shr32 (x n : Nat) : Nat := x >>> n

def add32 (a b : Nat) : Nat := (a + b) % 4294967296

def ch32 (e f g : Nat) : Nat := (e &&& f) ^^^ ((e ^^^ 4294967295) &&& g)

def maj32 (a b c : Nat) : Nat := (a &&& b) ^^^ (a &&& c) ^^^ (b &&& c)

def bigSigma0 (a : Nat) : Nat := rotr32 a 2 ^^^ rotr32 a 13 ^^^ rotr32 a 22

def bigSigma1 (e : Nat) : Nat := rotr32 e 6 ^^^ rotr32 e 11 ^^^ rotr32 e 25

def smallSigma0 (x : Nat) : Nat := rotr32 x 7 ^^^ rotr32 x 18 ^^^ shr32 x 3

def smallSigma1 (x : Nat) : Nat := rotr32 x 17 ^^^ rotr32 x 19 ^^^ shr32 x 10

def sha256K : List Nat :=
  [1116352408, 1899447441, 3049323471, 3921009573, 961987163,
   1508970993, 2453635748, 2870763221, 3624381080, 310598401,
   607225278, 1426881987, 1925078388, 2162078206, 2614888103,
   3248222580, 3835390401, 4022224774, 264347078, 604807628,
   770255983, 1249150122, 1555081692, 1996064986, 2554220882,
   2821834349, 2952996808, 3210313671, 3336571891, 3584528711,
   113926993, 338241895, 666307205, 773529912, 1294757372,
   1396182291, 1695183700, 1986661051, 2177026350, 2456956037,
   2730485921, 2820302411, 3259730800, 3345764771, 3516065817,
   3600352804, 4094571909, 275423344, 430227734, 506948616,
   659060556, 883997877, 958139571, 1322822218, 1537002063,
   1747873779, 1955562222, 2024104815, 2227730452, 2361852424,
   2428436474, 2756734187, 3204031479, 3329325298]

def sha256H0 : List Nat :=
  [1779033703, 3144134277, 1013904242, 2773480762,
   1359893119, 2600822924, 528734635, 1541459225]

def natToBytesBE : Nat → Nat → List Nat
  | _, 0 => []
  | n, k + 1 => natToBytesBE (n >>> 8) k ++ [n % 256]

def sha256pad (msg : List Nat) : List Nat :=
  let lenBits := 8 * msg.length
  let k := (64 + 56 - ((msg.length + 1) % 64)) % 64
  msg ++ [0x80] ++ List.replicate k 0 ++ natToBytesBE lenBits 8

def bytesToWords : List Nat → List Nat
  | b0 :: b1 :: b2 :: b3 :: rest =>
      (b0 <<< 24 ||| b1 <<< 16 ||| b2 <<< 8 ||| b3) :: bytesToWords rest
  | _ => []

def extendSchedule : List Nat → Nat → List Nat
  | w, 0 => w
  | w, k + 1 =>
      let n := w.length
      let nw := add32 (add32 (smallSigma1 (w.getD (n - 2) 0)) (w.getD (n - 7) 0))
                      (add32 (smallSigma0 (w.getD (n - 15) 0)) (w.getD (n - 16) 0))
      extendSchedule (w ++ [nw]) k

def sha256round (st : Nat × Nat × Nat × Nat × Nat × Nat × Nat × Nat) (kw : Nat × Nat) :
    Nat × Nat × Nat × Nat × Nat × Nat × Nat × Nat :=
  let (a, b, c, d, e, f, g, h) := st
  let t1 := add32 (add32 (add32 h (bigSigma1 e)) (add32 (ch32 e f g) kw.1)) kw.2
  let t2 := add32 (bigSigma0 a) (maj32 a b c)
  (add32 t1 t2, a, b, c, add32 d t1, e, f, g)

def sha256compress (h : List Nat) (block : List Nat) : List Nat :=
  let ws := extendSchedule (bytesToWords block) 48
  let init : Nat × Nat × Nat × Nat × Nat × Nat × Nat × Nat :=
    (h.getD 0 0, h.getD 1 0, h.getD 2 0, h.getD 3 0, h.getD 4 0, h.getD 5 0, h.getD 6 0, h.getD 7 0)
  let (a, b, c, d, e, f, g, hh) := (sha256K.zip ws).foldl sha256round init
  [add32 (h.getD 0 0) a, add32 (h.getD 1 0) b, add32 (h.getD 2 0) c, add32 (h.getD 3 0) d,
   add32 (h.getD 4 0) e, add32 (h.getD 5 0) f, add32 (h.getD 6 0) g, add32 (h.getD 7 0) hh]

def chunksAux (cur : List Nat) : List Nat → List (List Nat)
  | [] => if cur.isEmpty then [] else [cur.reverse]
  | b :: rest =>
      let cur2 := b :: cur
      if cur2.length == 64 then cur2.reverse :: chunksAux [] rest
      else chunksAux cur2 rest

def chunks64 (l : List Nat) : List (List Nat) := chunksAux [] l

def sha256 (msg : List Nat) : List Nat :=
  let final := (chunks64 (sha256pad msg)).foldl sha256compress sha256H0
  final.foldr (fun w acc => natToBytesBE w 4 ++ acc) []

def b64Alphabet : List Char :=
  "ABCDEFGHIJKLMNOPQRSTUVWXYZabcdefghijklmnopqrstuvwxyz0123456789-_".toList

def b64Char (n : Nat) : Char := b64Alphabet.getD n 'A'

def base64urlEncode : List Nat → String
  | [] => ""
  | [b0] =>
      String.mk [b64Char (b0 >>> 2), b64Char ((b0 &&& 3) <<< 4), '=', '=']
  | [b0, b1] =>
      String.mk [b64Char (b0 >>> 2), b64Char (((b0 &&& 3) <<< 4) ||| (b1 >>> 4)),
                 b64Char ((b1 &&& 15) <<< 2), '=']
  | b0 :: b1 :: b2 :: rest =>
      String.mk [b64Char (b0 >>> 2), b64Char (((b0 &&& 3) <<< 4) ||| (b1 >>> 4)),
                 b64Char (((b1 &&& 15) <<< 2) ||| (b2 >>> 6)), b64Char (b2 &&& 63)]
        ++ base64urlEncode rest

def utf8EncodeChar (c : Char) : List Nat :=
  let n := c.toNat
  if n < 0x80 then [n]
  else if n < 0x800 then [0xC0 ||| (n >>> 6), 0x80 ||| (n &&& 0x3F)]
  else if n < 0x10000 then
    [0xE0 ||| (n >>> 12), 0x80 ||| ((n >>> 6) &&& 0x3F), 0x80 ||| (n &&& 0x3F)]
  else
    [0xF0 ||| (n >>> 18), 0x80 ||| ((n >>> 12) &&& 0x3F),
     0x80 ||| ((n >>> 6) &&& 0x3F), 0x80 ||| (n &&& 0x3F)]

def strToBytes (s : String) : List Nat :=
  s.data.foldr (fun c acc => utf8EncodeChar c ++ acc) []

/-- `hashToken` from `middleware.go`: SHA-256 of the UTF-8 bytes of the token
string, base64 URL-encoded. -/
def hashToken (token : String) : String :=
  base64urlEncode (sha256 (strToBytes token))

/-- `generateOpaqueTokenString` from `middleware.go`: 32 bytes of
cryptographically secure randomness, base64 URL-encoded. The random bytes are
the `entropy` argument of the model. -/
def generateOpaqueTokenString (entropy : List Nat) : String :=
  base64urlEncode entropy

/-! ## Go error values -/

/-- Go `error` values used by the auth package: the package-level sentinel
errors, `errors.New` at call sites, `fmt.Errorf("...: %w", inner)` wrapping,
`*pgconn.PgError` backend errors carrying an SQLSTATE code, and any other
(non-postgres) backend error. -/
inductive GoErr
  | ErrInvalidCredentials
  | ErrTokenExpired
  | ErrTokenNotValidYet
  | ErrInvalidToken
  | ErrUserNotFound
  | ErrUserAlreadyExists
  | ErrRefreshTokenNotFound
  | errorsNew (msg : String)
  | wrapped (msg : String) (inner : GoErr)
  | pgError (code : String)
  | otherDBErr
deriving DecidableEq

/-- `errors.Is`: the target is the error itself or somewhere down the wrap
chain. -/
def GoErr.is (e target : GoErr) : Bool :=
  (if e = target then true else false) ||
  (match e with
   | .wrapped _ inner => GoErr.is inner target
   | _ => false)

/-- `errors.As(err, &pgErr)` followed by reading `pgErr.Code`: the SQLSTATE
code of the first postgres error in the wrap chain, if any. -/
def GoErr.pgCode : GoErr → Option String
  | .pgError code => some code
  | .wrapped _ inner => GoErr.pgCode inner
  | _ => none

/-! ## Data model -/

/-- `user.User`: identity record (uuid modelled as `Nat`, timestamps as
`Nat`). -/
structure User where
  ID : Nat
  Email : String
  PasswordHash : String
  CreatedAt : Nat
  UpdatedAt : Nat
deriving DecidableEq

/-- The zero value of `user.User` (what a failed `Scan` leaves behind). -/
def zeroUser : User := ⟨0, "", "", 0, 0⟩

/-- A row of the `refresh_tokens` table (id column omitted; it is never read
by the auth package). -/
structure RefreshTokenRec where
  userID : Nat
  tokenHash : String
  expiresAt : Nat
deriving DecidableEq

/-- The relational backend state: the `users` and `refresh_tokens` tables. -/
structure DBState where
  users : List User
  tokens : List RefreshTokenRec
deriving DecidableEq

/-! ## User store (`CreateUserInDB`, `FindUserByEmailInDB`) -/

/-- `UserStore.FindUserByEmailInDB`: select by email. A backend fault is
wrapped; no matching row is `pgx.ErrNoRows`, mapped to `ErrUserNotFound`. -/
def FindUserByEmailInDB (users : List User) (email : String) (fault : Option GoErr) :
    Except GoErr User :=
  match fault with
  | some f => .error (.wrapped "could not find user by email" f)
  | none =>
      match users.find? (fun u => decide (u.Email = email)) with
      | some u => .ok u
      | none => .error .ErrUserNotFound

/-- `UserStore.CreateUserInDB`: insert returning the new row. The database
itself raises SQLSTATE 23505 when the email already exists (unique
constraint); an injected fault models any other failed round-trip. The Go
function checks `errors.As(err, &pgErr)`: code 23505 wraps
`ErrUserAlreadyExists`, another postgres code is wrapped and returned, and —
faithfully to the source — a non-postgres error falls out of the `errors.As`
block and reaches `return &u, nil`, returning the zero-value user with a nil
error. -/
def CreateUserInDB (users : List User) (email passwordHash : String) (newID now : Nat)
    (fault : Option GoErr) : Except GoErr (User × List User) :=
  let dbErr : Option GoErr :=
    match fault with
    | some f => some f
    | none =>
        if users.any (fun u => decide (u.Email = email)) then some (.pgError "23505") else none
  match dbErr with
  | some e =>
      match e.pgCode with
      | some code =>
          if code = "23505" then
            .error (.wrapped ("user with email " ++ email ++ " already exists") .ErrUserAlreadyExists)
          else
            .error (.wrapped "could not find user by email" e)
      | none =>
          .ok (zeroUser, users)
  | none =>
      let u : User := ⟨newID, email, passwordHash, now, now⟩
      .ok (u, users ++ [u])

/-! ## Token store (`token_store.go`) -/

/-- `TokenStore.SaveRefreshToken`: insert a refresh-token row. The database
raises SQLSTATE 23505 on a duplicate `token_hash` (unique constraint); the Go
code distinguishes that code from any other failure only in the wrap
message. -/
def SaveRefreshToken (tokens : List RefreshTokenRec) (userID : Nat) (tokenHash : String)
    (expiresAt : Nat) (fault : Option GoErr) : Except GoErr (List RefreshTokenRec) :=
  let dbErr : Option GoErr :=
    match fault with
    | some f => some f
    | none =>
        if tokens.any (fun r => decide (r.tokenHash = tokenHash)) then
          some (.pgError "23505")
        else none
  match dbErr with
  | some e =>
      if e.pgCode = some "23505" then
        .error (.wrapped "failed to save refresh token due to conflict" e)
      else
        .error (.wrapped "failed to save refresh token" e)
  | none => .ok (tokens ++ [⟨userID, tokenHash, expiresAt⟩])

/-- `TokenStore.ValidateAndFetchUserByTokenHash`: join of `refresh_tokens`
and `users` filtered to `token_hash = $1 AND expires_at > NOW()`; no matching
row (never existed, expired, or already rotated away) is `pgx.ErrNoRows`,
mapped to `ErrRefreshTokenNotFound`. -/
def ValidateAndFetchUserByTokenHash (tokens : List RefreshTokenRec) (users : List User)
    (tokenHash : String) (now : Nat) (fault : Option GoErr) : Except GoErr User :=
  match fault with
  | some f => .error (.wrapped "error validating refresh token from DB" f)
  | none =>
      match tokens.find? (fun r => decide (r.tokenHash = tokenHash) && decide (now < r.expiresAt)) with
      | none => .error .ErrRefreshTokenNotFound
      | some r =>
          match users.find? (fun u => decide (u.ID = r.userID)) with
          | none => .error .ErrRefreshTokenNotFound
          | some u => .ok u

/-- `TokenStore.DeleteRefreshTokenByHash`: delete by hash. Zero rows affected
is only logged, not an error; a failed round-trip is wrapped and returned
with the table unchanged. -/
def DeleteRefreshTokenByHash (tokens : List RefreshTokenRec) (tokenHash : String)
    (fault : Option GoErr) : Except GoErr (List RefreshTokenRec) :=
  match fault with
  | some f => .error (.wrapped "failed to delete refresh token from DB" f)
  | none => .ok (tokens.filter (fun r => !decide (r.tokenHash = tokenHash)))

/-! ## JWT model (`golang-jwt/jwt/v5` as used by `middleware.go`) -/

/-- The signing methods of the jwt library that can appear in a token
header. -/
inductive SigningMethod
  | HS256
  | HS384
  | HS512
  | RS256
  | ES256
  | algNone
deriving DecidableEq

/-- `token.Method.(*jwt.SigningMethodHMAC)`: the HMAC family. -/
def SigningMethod.isHMAC : SigningMethod → Bool
  | .HS256 => true
  | .HS384 => true
  | .HS512 => true
  | _ => false

/-- `JWTCustomClaims`: user id and email plus the registered claims set by
this service (`jwt.RegisteredClaims` fields that the code writes or the
validator reads). -/
structure JWTCustomClaims where
  UserID : Nat
  Email : String
  ExpiresAt : Option Nat
  IssuedAt : Option Nat
  NotBefore : Option Nat
  Issuer : String
  Subject : String
deriving DecidableEq

/-- A JWT compact serialization, structurally: either malformed (fails
segment decoding) or a signed header/claims/signature triple. -/
inductive JWTString
  | malformed
  | signed (alg : SigningMethod) (claims : JWTCustomClaims) (sig : String)
deriving DecidableEq

/-- The HMAC signature primitive: method, key, and signing input (the encoded
header and claims) to signature bytes. Every theorem is quantified over it. -/
abbrev HmacFun := SigningMethod → String → JWTCustomClaims → String

/-- `bcrypt.CompareHashAndPassword` wrapped by `CheckPasswordHash(password,
hash)`. Every theorem is quantified over it. -/
abbrev BcryptCheck := String → String → Bool

/-- The failure cases of `jwt.ParseWithClaims` reachable in this model:
malformed input, keyfunc rejection (unexpected signing method), invalid
signature, or invalid claims with the expired / not-yet-valid flags the
validator joined into the error. -/
inductive ParseErr
  | malformed
  | keyfuncErr
  | sigInvalid
  | claimsInvalid (expired notYetValid : Bool)
deriving DecidableEq

/-- `errors.Is(err, jwt.ErrTokenExpired)` on a parse error. -/
def ParseErr.isExpired : ParseErr → Bool
  | .claimsInvalid e _ => e
  | _ => false

/-- `errors.Is(err, jwt.ErrTokenNotValidYet)` on a parse error. -/
def ParseErr.isNotValidYet : ParseErr → Bool
  | .claimsInvalid _ n => n
  | _ => false

/-- `jwt.ParseWithClaims` with the keyfunc from `ValidateToken`: reject any
non-HMAC signing method, otherwise hand the service secret to signature
verification; then validate the temporal claims (jwt/v5: expired iff the
expiry is not after `now`, not-yet-valid iff `now` is before the not-before;
a missing claim passes). Violations of both are joined into one error. -/
def parseWithClaims (secret : String) (hmacF : HmacFun) (tok : JWTString) (now : Nat) :
    Except ParseErr JWTCustomClaims :=
  match tok with
  | .malformed => .error .malformed
  | .signed alg claims sig =>
      if alg.isHMAC = false then .error .keyfuncErr
      else if sig = hmacF alg secret claims then
        let expired : Bool := match claims.ExpiresAt with
          | some exp => decide (exp ≤ now)
          | none => false
        let notYetValid : Bool := match claims.NotBefore with
          | some nbf => decide (now < nbf)
          | none => false
        if expired || notYetValid then .error (.claimsInvalid expired notYetValid)
        else .ok claims
      else .error .sigInvalid

/-- `AuthService`: the immutable per-service configuration (the store and
pool handles are modelled as explicit state arguments of each operation). -/
structure AuthService where
  jwtSecret : String
  jwtExpiration : Nat
  refreshTokenExpiration : Nat

/-- `AuthService.GenerateAccessToken`: nil user is rejected; otherwise an
HS256 token with the user id and email, issued-at = not-before = now,
expiry = now + the configured access lifetime, a fixed issuer, and the user
id as subject. -/
def GenerateAccessToken (s : AuthService) (hmacF : HmacFun) (u : Option User) (now : Nat) :
    Except GoErr JWTString :=
  match u with
  | none => .error (.errorsNew "user cannot be nil for token generation")
  | some u =>
      let claims : JWTCustomClaims :=
        ⟨u.ID, u.Email, some (now + s.jwtExpiration), some now, some now,
         "PaperTradingApp", toString u.ID⟩
      .ok (.signed .HS256 claims (hmacF .HS256 s.jwtSecret claims))

/-- `AuthService.GenerateRefreshToken` (the legacy signed-refresh-token
helper): nil user is rejected; otherwise an HS256 token with simpler claims
and the refresh lifetime. -/
def GenerateRefreshToken (s : AuthService) (hmacF : HmacFun) (u : Option User) (now : Nat) :
    Except GoErr JWTString :=
  match u with
  | none => .error (.errorsNew "user cannot be nil for refresh token generation")
  | some u =>
      let claims : JWTCustomClaims :=
        ⟨u.ID, "", some (now + s.refreshTokenExpiration), some now, some now,
         "PaperTradingApp-Refresh", toString u.ID⟩
      .ok (.signed .HS256 claims (hmacF .HS256 s.jwtSecret claims))

/-- `AuthService.ValidateToken`: parse and validate, then remap the library
error: `errors.Is(err, jwt.ErrTokenExpired)` to `ErrTokenExpired`,
`errors.Is(err, jwt.ErrTokenNotValidYet)` to `ErrTokenNotValidYet`, anything
else to `ErrInvalidToken`. (The model takes the already
bearer-stripped token.) -/
def ValidateToken (s : AuthService) (hmacF : HmacFun) (tok : JWTString) (now : Nat) :
    Except GoErr JWTCustomClaims :=
  match parseWithClaims s.jwtSecret hmacF tok now with
  | .error e =>
      if e.isExpired then .error .ErrTokenExpired
      else if e.isNotValidYet then .error .ErrTokenNotValidYet
      else .error .ErrInvalidToken
  | .ok claims => .ok claims

/-! ## Auth service: login and refresh rotation -/

/-- The sanitized user projection sent in responses. -/
structure UserInfoForResponse where
  ID : Nat
  Email : String
deriving DecidableEq

/-- `ToUserInfoForResponse`: zero value on a nil user, else the id and email
projection. -/
def ToUserInfoForResponse (u : Option User) : UserInfoForResponse :=
  match u with
  | none => ⟨0, ""⟩
  | some u => ⟨u.ID, u.Email⟩

structure LoginUserInput where
  Email : String
  Password : String

structure LoginUserResponse where
  AccessToken : JWTString
  RefreshToken : String
  User : UserInfoForResponse
deriving DecidableEq

/-- `AuthService.LoginUser`: input validation, find-by-email (not-found
collapses to `ErrInvalidCredentials`), password check (mismatch collapses to
`ErrInvalidCredentials`), access-token minting, opaque refresh-token minting
from `entropy`, and persistence of the token hash. Returns the response and
the new backend state. -/
def LoginUser (s : AuthService) (hmacF : HmacFun) (bcryptCheck : BcryptCheck) (st : DBState)
    (input : LoginUserInput) (now : Nat) (entropy : List Nat)
    (findFault saveFault : Option GoErr) : Except GoErr (LoginUserResponse × DBState) :=
  if input.Email = "" ∨ input.Password = "" then
    .error (.errorsNew "email and password are required for login")
  else
    match FindUserByEmailInDB st.users input.Email findFault with
    | .error e =>
        if e.is .ErrUserNotFound then .error .ErrInvalidCredentials
        else .error (.wrapped "login attempt failed" e)
    | .ok u =>
        if bcryptCheck input.Password u.PasswordHash = false then
          .error .ErrInvalidCredentials
        else
          match GenerateAccessToken s hmacF (some u) now with
          | .error e => .error (.wrapped "could not generate access token" e)
          | .ok accessToken =>
              let opaqueRefreshToken := generateOpaqueTokenString entropy
              let refreshTokenHash := hashToken opaqueRefreshToken
              let refreshTokenExpiresAt := now + s.refreshTokenExpiration
              match SaveRefreshToken st.tokens u.ID refreshTokenHash refreshTokenExpiresAt
                  saveFault with
              | .error e => .error (.wrapped "failed to save refresh token for login" e)
              | .ok tokens2 =>
                  .ok (⟨accessToken, opaqueRefreshToken, ToUserInfoForResponse (some u)⟩,
                       ⟨st.users, tokens2⟩)

structure RefreshTokenResponse where
  AccessToken : JWTString
  RefreshToken : String
deriving DecidableEq

/-- `AuthService.ProcessRefreshToken`: reject empty input; hash the presented
token and validate it against the store (any failure collapses to
`ErrInvalidToken`); delete the old record (a failed deletion is logged and
the flow continues on the unchanged table); mint a new access token and a new
opaque refresh token from `entropy`; persist the new hash (a failed save is
fatal). Returns the response and the new backend state. -/
def ProcessRefreshToken (s : AuthService) (hmacF : HmacFun) (st : DBState)
    (oldOpaqueRefreshTokenString : String) (now : Nat) (entropy : List Nat)
    (validateFault deleteFault saveFault : Option GoErr) :
    Except GoErr (RefreshTokenResponse × DBState) :=
  if oldOpaqueRefreshTokenString = "" then .error .ErrInvalidToken
  else
    let oldTokenHash := hashToken oldOpaqueRefreshTokenString
    match ValidateAndFetchUserByTokenHash st.tokens st.users oldTokenHash now validateFault with
    | .error _ => .error .ErrInvalidToken
    | .ok u =>
        let tokens1 :=
          match DeleteRefreshTokenByHash st.tokens oldTokenHash deleteFault with
          | .error _ => st.tokens
          | .ok tokens1 => tokens1
        match GenerateAccessToken s hmacF (some u) now with
        | .error e => .error (.wrapped "could not generate new access token during refresh" e)
        | .ok newAccessToken =>
            let newOpaqueRefreshToken := generateOpaqueTokenString entropy
            let newRefreshTokenHash := hashToken newOpaqueRefreshToken
            let newRefreshTokenExpiresAt := now + s.refreshTokenExpiration
            match SaveRefreshToken tokens1 u.ID newRefreshTokenHash newRefreshTokenExpiresAt
                saveFault with
            | .error e => .error (.wrapped "failed to save new refresh token" e)
            | .ok tokens2 =>
                .ok (⟨newAccessToken, newOpaqueRefreshToken⟩, ⟨st.users, tokens2⟩)

/-! ## Helper lemmas -/

theorem base64urlEncode_ne_empty (l : List Nat) (h : l ≠ []) : base64urlEncode l ≠ "" := by
  match l with
  | [] => exact absurd rfl h
  | [b0] =>
      intro he
      have hd := congrArg String.data he
      simp only [base64urlEncode] at hd
      exact List.noConfusion hd
  | [b0, b1] =>
      intro he
      have hd := congrArg String.data he
      simp only [base64urlEncode] at hd
      exact List.noConfusion hd
  | b0 :: b1 :: b2 :: rest =>
      intro he
      have hd := congrArg String.data he
      simp only [base64urlEncode, String.data_append] at hd
      exact List.noConfusion hd

theorem SaveRefreshToken_ok (tokens : List RefreshTokenRec) (userID : Nat)
    (tokenHash : String) (expiresAt : Nat)
    (h : ∀ r ∈ tokens, ¬ r.tokenHash = tokenHash) :
    SaveRefreshToken tokens userID tokenHash expiresAt none
      = .ok (tokens ++ [⟨userID, tokenHash, expiresAt⟩]) := by
  have hany : tokens.any (fun r => decide (r.tokenHash = tokenHash)) = false := by
    rw [List.any_eq_false]
    intro r hr
    simp [h r hr]
  simp [SaveRefreshToken, hany]

theorem validate_error_of_no_hash (tokens : List RefreshTokenRec) (users : List User)
    (tokenHash : String) (now : Nat)
    (h : ∀ r ∈ tokens, ¬ r.tokenHash = tokenHash) :
    ValidateAndFetchUserByTokenHash tokens users tokenHash now none
      = .error .ErrRefreshTokenNotFound := by
  have hfind : tokens.find?
      (fun r => decide (r.tokenHash = tokenHash) && decide (now < r.expiresAt)) = none := by
    rw [List.find?_eq_none]
    intro r hr
    simp [h r hr]
  simp [ValidateAndFetchUserByTokenHash, hfind]

theorem exists_record_of_validate_ok (tokens : List RefreshTokenRec) (users : List User)
    (tokenHash : String) (now : Nat) (u : User)
    (h : ValidateAndFetchUserByTokenHash tokens users tokenHash now none = .ok u) :
    ∃ r ∈ tokens, r.tokenHash = tokenHash := by
  unfold ValidateAndFetchUserByTokenHash at h
  cases hfind : tokens.find?
      (fun r => decide (r.tokenHash = tokenHash) && decide (now < r.expiresAt)) with
  | none => simp [hfind] at h
  | some r =>
      have hmem := List.mem_of_find?_eq_some hfind
      have hpred := List.find?_some hfind
      simp only [Bool.and_eq_true, decide_eq_true_eq] at hpred
      exact ⟨r, hmem, hpred.1⟩

/-! ## Claim theorems -/

/-- C10: `ToUserInfoForResponse` is total at nil: a nil user yields the
zero-value projection (zero id, empty email) without any failure, and a
non-nil user yields exactly its ID and Email. -/
theorem ToUserInfoForResponse_total :
    ToUserInfoForResponse none = ⟨0, ""⟩ ∧
    ∀ u : User, ToUserInfoForResponse (some u) = ⟨u.ID, u.Email⟩ :=
  ⟨rfl, fun _ => rfl⟩

/-- C8: `GenerateAccessToken` and `GenerateRefreshToken` reject a nil user
with an error instead of reaching the signing path, and for every non-nil
user they reach the signing path and return a signed token. -/
theorem generateTokens_nil_user (s : AuthService) (hmacF : HmacFun) (now : Nat) :
    GenerateAccessToken s hmacF none now
      = .error (.errorsNew "user cannot be nil for token generation") ∧
    GenerateRefreshToken s hmacF none now
      = .error (.errorsNew "user cannot be nil for refresh token generation") ∧
    (∀ u : User, ∃ c : JWTCustomClaims,
      GenerateAccessToken s hmacF (some u) now
        = .ok (.signed .HS256 c (hmacF .HS256 s.jwtSecret c))) ∧
    (∀ u : User, ∃ c : JWTCustomClaims,
      GenerateRefreshToken s hmacF (some u) now
        = .ok (.signed .HS256 c (hmacF .HS256 s.jwtSecret c))) :=
  ⟨rfl, rfl, fun _ => ⟨_, rfl⟩, fun _ => ⟨_, rfl⟩⟩

/-- C4 (divergence evidence): when the insert behind `CreateUserInDB` fails
with a backend error that is not a `*pgconn.PgError` (here: on an empty user
table, so no unique violation is involved), the function returns a nil error
together with the zero-value user record instead of a storage failure. -/
theorem CreateUserInDB_spurious_success :
    CreateUserInDB [] "alice@example.com" "digest" 1 0 (some .otherDBErr)
      = .ok (zeroUser, []) := rfl

/-- C6: `ValidateToken` partitions failures into exactly three kinds: a
malformed token, a non-HMAC algorithm header, or a bad signature yield
`ErrInvalidToken`; an otherwise-valid token past its expiry yields
`ErrTokenExpired`; an otherwise-valid, unexpired token before its not-before
yields `ErrTokenNotValidYet`; and every error the function can return is one
of these three values. A token signed with a non-HMAC method is always
rejected. -/
theorem ValidateToken_error_partition (s : AuthService) (hmacF : HmacFun) :
    (∀ now, ValidateToken s hmacF .malformed now = .error .ErrInvalidToken) ∧
    (∀ alg claims sig now, alg.isHMAC = false →
      ValidateToken s hmacF (.signed alg claims sig) now = .error .ErrInvalidToken) ∧
    (∀ alg claims sig now, sig ≠ hmacF alg s.jwtSecret claims →
      ValidateToken s hmacF (.signed alg claims sig) now = .error .ErrInvalidToken) ∧
    (∀ alg claims sig now exp, alg.isHMAC = true → sig = hmacF alg s.jwtSecret claims →
      claims.ExpiresAt = some exp → exp ≤ now →
      ValidateToken s hmacF (.signed alg claims sig) now = .error .ErrTokenExpired) ∧
    (∀ alg claims sig now nbf, alg.isHMAC = true → sig = hmacF alg s.jwtSecret claims →
      (∀ exp ∈ claims.ExpiresAt, now < exp) → claims.NotBefore = some nbf → now < nbf →
      ValidateToken s hmacF (.signed alg claims sig) now = .error .ErrTokenNotValidYet) ∧
    (∀ tok now err, ValidateToken s hmacF tok now = .error err →
      err = .ErrTokenExpired ∨ err = .ErrTokenNotValidYet ∨ err = .ErrInvalidToken) := by
  refine ⟨fun now => rfl, ?_, ?_, ?_, ?_, ?_⟩
  · intro alg claims sig now halg
    simp [ValidateToken, parseWithClaims, halg, ParseErr.isExpired, ParseErr.isNotValidYet]
  · intro alg claims sig now hsig
    by_cases halg : alg.isHMAC = false
    · simp [ValidateToken, parseWithClaims, halg, ParseErr.isExpired, ParseErr.isNotValidYet]
    · simp [ValidateToken, parseWithClaims, halg, hsig, ParseErr.isExpired,
        ParseErr.isNotValidYet]
  · intro alg claims sig now exp halg hsig hexp hle
    simp [ValidateToken, parseWithClaims, halg, hsig, hexp, hle, ParseErr.isExpired]
  · intro alg claims sig now nbf halg hsig hexp hnbf hlt
    have hexpB : (match claims.ExpiresAt with
        | some exp => decide (exp ≤ now)
        | none => false) = false := by
      cases h : claims.ExpiresAt with
      | none => rfl
      | some exp =>
          have := hexp exp (by simp [h])
          simp [Nat.not_le.mpr this]
    simp [ValidateToken, parseWithClaims, halg, hsig, hexpB, hnbf, hlt, ParseErr.isExpired,
      ParseErr.isNotValidYet]
  · intro tok now err h
    unfold ValidateToken at h
    cases hp : parseWithClaims s.jwtSecret hmacF tok now with
    | ok c => simp [hp] at h
    | error e =>
        simp only [hp] at h
        split_ifs at h <;> simp_all

/-- C7: mint/validate round-trip: a token minted by `GenerateAccessToken` for
a non-nil user carries the user id and email, issued-at = not-before = mint
time, expiry = mint time + configured access lifetime, the fixed issuer, and
the user id as the string subject; it is accepted by `ValidateToken` at any
instant between mint time and strictly before its expiry (returning exactly
those claims), and it is rejected with the expired kind at or after the
expiry instant. -/
theorem accessToken_roundtrip (s : AuthService) (hmacF : HmacFun) (u : User) (now v : Nat)
    (hmint : now ≤ v) :
    ∃ claims sig,
      GenerateAccessToken s hmacF (some u) now = .ok (.signed .HS256 claims sig) ∧
      claims.UserID = u.ID ∧ claims.Email = u.Email ∧
      claims.IssuedAt = some now ∧ claims.NotBefore = some now ∧
      claims.ExpiresAt = some (now + s.jwtExpiration) ∧
      claims.Issuer = "PaperTradingApp" ∧ claims.Subject = toString u.ID ∧
      (v < now + s.jwtExpiration →
        ValidateToken s hmacF (.signed .HS256 claims sig) v = .ok claims) ∧
      (now + s.jwtExpiration ≤ v →
        ValidateToken s hmacF (.signed .HS256 claims sig) v = .error .ErrTokenExpired) := by
  refine ⟨_, _, rfl, rfl, rfl, rfl, rfl, rfl, rfl, rfl, ?_, ?_⟩
  · intro hv
    simp [ValidateToken, parseWithClaims, SigningMethod.isHMAC, Nat.not_le.mpr hv,
      Nat.not_lt.mpr hmint]
  · intro hv
    simp [ValidateToken, parseWithClaims, SigningMethod.isHMAC, hv, ParseErr.isExpired]

/-- C3: `LoginUser` returns the same error value, `ErrInvalidCredentials`,
when the email has no user record and when the user exists but password
verification fails, so the two failure causes are externally
indistinguishable. -/
theorem login_failure_indistinguishable (s : AuthService) (hmacF : HmacFun)
    (bcryptCheck : BcryptCheck) (st : DBState) (input : LoginUserInput) (now : Nat)
    (entropy : List Nat) (sf : Option GoErr)
    (he : ¬ input.Email = "") (hp : ¬ input.Password = "") :
    (st.users.find? (fun v => decide (v.Email = input.Email)) = none →
      LoginUser s hmacF bcryptCheck st input now entropy none sf
        = .error .ErrInvalidCredentials) ∧
    (∀ u, st.users.find? (fun v => decide (v.Email = input.Email)) = some u →
      bcryptCheck input.Password u.PasswordHash = false →
      LoginUser s hmacF bcryptCheck st input now entropy none sf
        = .error .ErrInvalidCredentials) := by
  constructor
  · intro hfind
    simp [LoginUser, FindUserByEmailInDB, he, hp, hfind, GoErr.is]
  · intro u hfind hbc
    simp [LoginUser, FindUserByEmailInDB, he, hp, hfind, hbc]

/-- C5: within `ProcessRefreshToken`, once the old token validates, a failure
of the delete-old-token step is non-fatal (rotation continues and returns the
new tokens), whereas a failure of the save-new-token step makes the whole
call return an error, issuing no tokens. -/
theorem refresh_delete_nonfatal_save_fatal (s : AuthService) (hmacF : HmacFun) (st : DBState)
    (t : String) (now : Nat) (entropy : List Nat) (u : User) (f g : GoErr)
    (ht : ¬ t = "")
    (hv : ValidateAndFetchUserByTokenHash st.tokens st.users (hashToken t) now none = .ok u)
    (hfresh : ∀ r ∈ st.tokens, ¬ r.tokenHash = hashToken (generateOpaqueTokenString entropy)) :
    (∃ resp st2,
      ProcessRefreshToken s hmacF st t now entropy none (some f) none = .ok (resp, st2) ∧
      resp.RefreshToken = generateOpaqueTokenString entropy) ∧
    (∀ df, ∃ err,
      ProcessRefreshToken s hmacF st t now entropy none df (some g) = .error err) := by
  constructor
  · have hsave := SaveRefreshToken_ok st.tokens u.ID
      (hashToken (generateOpaqueTokenString entropy)) (now + s.refreshTokenExpiration) hfresh
    refine ⟨⟨(GenerateAccessToken s hmacF (some u) now).toOption.getD .malformed,
      generateOpaqueTokenString entropy⟩,
      ⟨st.users, st.tokens ++ [⟨u.ID, hashToken (generateOpaqueTokenString entropy),
        now + s.refreshTokenExpiration⟩]⟩, ?_, rfl⟩
    simp [ProcessRefreshToken, ht, hv, DeleteRefreshTokenByHash, GenerateAccessToken, hsave,
      Except.toOption]
  · intro df
    have hsaveFail : ∀ tokens1 : List RefreshTokenRec, ∃ err,
        SaveRefreshToken tokens1 u.ID (hashToken (generateOpaqueTokenString entropy))
          (now + s.refreshTokenExpiration) (some g) = .error err := by
      intro tokens1
      by_cases hg : g.pgCode = some "23505" <;> simp [SaveRefreshToken, hg]
    cases df with
    | none =>
        obtain ⟨err, herr⟩ := hsaveFail
          (st.tokens.filter (fun r => !decide (r.tokenHash = hashToken t)))
        exact ⟨.wrapped "failed to save new refresh token" err,
          by simp [ProcessRefreshToken, ht, hv, DeleteRefreshTokenByHash,
            GenerateAccessToken, herr]⟩
    | some fd =>
        obtain ⟨err, herr⟩ := hsaveFail st.tokens
        exact ⟨.wrapped "failed to save new refresh token" err,
          by simp [ProcessRefreshToken, ht, hv, DeleteRefreshTokenByHash,
            GenerateAccessToken, herr]⟩

/-- C1: refresh rotation is single-use: for a refresh token valid in the
store, one call to `ProcessRefreshToken` succeeds, the resulting store holds
no record for the token's hash (the old record was deleted before the new
credentials were persisted), and any second call presenting the same token —
at any later instant, with any entropy and any backend faults — fails with
`ErrInvalidToken`. -/
theorem refresh_rotation_single_use (s : AuthService) (hmacF : HmacFun) (st : DBState)
    (t : String) (now : Nat) (entropy : List Nat) (u : User)
    (ht : ¬ t = "")
    (hv : ValidateAndFetchUserByTokenHash st.tokens st.users (hashToken t) now none = .ok u)
    (hfresh : ∀ r ∈ st.tokens, ¬ r.tokenHash = hashToken (generateOpaqueTokenString entropy)) :
    ∃ resp st2,
      ProcessRefreshToken s hmacF st t now entropy none none none = .ok (resp, st2) ∧
      (∀ r ∈ st2.tokens, ¬ r.tokenHash = hashToken t) ∧
      (∀ now2 e2 vf df sf,
        ProcessRefreshToken s hmacF st2 t now2 e2 vf df sf = .error .ErrInvalidToken) := by
  set newHash := hashToken (generateOpaqueTokenString entropy) with hNewHash
  set tokens1 := st.tokens.filter (fun r => !decide (r.tokenHash = hashToken t)) with hTokens1
  have hfresh1 : ∀ r ∈ tokens1, ¬ r.tokenHash = newHash := by
    intro r hr
    exact hfresh r (List.mem_filter.mp hr).1
  have hsave := SaveRefreshToken_ok tokens1 u.ID newHash (now + s.refreshTokenExpiration) hfresh1
  have hOldNew : ¬ (⟨u.ID, newHash, now + s.refreshTokenExpiration⟩ :
      RefreshTokenRec).tokenHash = hashToken t := by
    obtain ⟨r0, hr0mem, hr0hash⟩ := exists_record_of_validate_ok _ _ _ _ _ hv
    intro hcontr
    exact hfresh r0 hr0mem (by rw [hr0hash, ← hcontr])
  have hNoOld : ∀ r ∈ tokens1 ++ [(⟨u.ID, newHash, now + s.refreshTokenExpiration⟩ :
      RefreshTokenRec)], ¬ r.tokenHash = hashToken t := by
    intro r hr
    rcases List.mem_append.mp hr with hr1 | hr2
    · have := (List.mem_filter.mp hr1).2
      simpa using this
    · rcases List.mem_singleton.mp hr2 with rfl
      exact hOldNew
  refine ⟨⟨(GenerateAccessToken s hmacF (some u) now).toOption.getD .malformed,
    generateOpaqueTokenString entropy⟩,
    ⟨st.users, tokens1 ++ [⟨u.ID, newHash, now + s.refreshTokenExpiration⟩]⟩, ?_, hNoOld, ?_⟩
  · simp [ProcessRefreshToken, ht, hv, DeleteRefreshTokenByHash, GenerateAccessToken, hsave,
      Except.toOption]
  · intro now2 e2 vf df sf
    cases vf with
    | some fv => simp [ProcessRefreshToken, ht, ValidateAndFetchUserByTokenHash]
    | none =>
        have hval := validate_error_of_no_hash
          (tokens1 ++ [⟨u.ID, newHash, now + s.refreshTokenExpiration⟩]) st.users
          (hashToken t) now2 hNoOld
        simp [ProcessRefreshToken, ht, hval]

/-- C2: the raw opaque refresh-token string is never written to the token
store: on a successful `LoginUser`, and on a successful
`ProcessRefreshToken`, the raw 32-byte-entropy base64 URL-encoded token
string is returned to the caller while the one record added to the store
carries exactly `hashToken` of that string. -/
theorem refreshToken_stored_only_hashed :
    (∀ (s : AuthService) (hmacF : HmacFun) (bcryptCheck : BcryptCheck) (st : DBState)
       (input : LoginUserInput) (now : Nat) (entropy : List Nat) (u : User),
      ¬ input.Email = "" → ¬ input.Password = "" →
      st.users.find? (fun v => decide (v.Email = input.Email)) = some u →
      bcryptCheck input.Password u.PasswordHash = true →
      entropy.length = 32 →
      (∀ r ∈ st.tokens, ¬ r.tokenHash = hashToken (generateOpaqueTokenString entropy)) →
      ∃ resp st2,
        LoginUser s hmacF bcryptCheck st input now entropy none none = .ok (resp, st2) ∧
        resp.RefreshToken = generateOpaqueTokenString entropy ∧
        st2.users = st.users ∧
        st2.tokens = st.tokens
          ++ [⟨u.ID, hashToken resp.RefreshToken, now + s.refreshTokenExpiration⟩]) ∧
    (∀ (s : AuthService) (hmacF : HmacFun) (st : DBState) (t : String) (now : Nat)
       (entropy : List Nat) (u : User),
      ¬ t = "" →
      ValidateAndFetchUserByTokenHash st.tokens st.users (hashToken t) now none = .ok u →
      entropy.length = 32 →
      (∀ r ∈ st.tokens, ¬ r.tokenHash = hashToken (generateOpaqueTokenString entropy)) →
      ∃ resp st2,
        ProcessRefreshToken s hmacF st t now entropy none none none = .ok (resp, st2) ∧
        resp.RefreshToken = generateOpaqueTokenString entropy ∧
        st2.users = st.users ∧
        st2.tokens = st.tokens.filter (fun r => !decide (r.tokenHash = hashToken t))
          ++ [⟨u.ID, hashToken resp.RefreshToken, now + s.refreshTokenExpiration⟩]) := by
  constructor
  · intro s hmacF bcryptCheck st input now entropy u he hp hfind hbc hlen hfresh
    have hsave := SaveRefreshToken_ok st.tokens u.ID
      (hashToken (generateOpaqueTokenString entropy)) (now + s.refreshTokenExpiration) hfresh
    refine ⟨⟨(GenerateAccessToken s hmacF (some u) now).toOption.getD .malformed,
      generateOpaqueTokenString entropy, ToUserInfoForResponse (some u)⟩,
      ⟨st.users, st.tokens ++ [⟨u.ID, hashToken (generateOpaqueTokenString entropy),
        now + s.refreshTokenExpiration⟩]⟩, ?_, rfl, rfl, rfl⟩
    simp [LoginUser, FindUserByEmailInDB, he, hp, hfind, hbc, GenerateAccessToken, hsave,
      Except.toOption]
  · intro s hmacF st t now entropy u ht hv hlen hfresh
    have hfresh1 : ∀ r ∈ st.tokens.filter (fun r => !decide (r.tokenHash = hashToken t)),
        ¬ r.tokenHash = hashToken (generateOpaqueTokenString entropy) := by
      intro r hr
      exact hfresh r (List.mem_filter.mp hr).1
    have hsave := SaveRefreshToken_ok _ u.ID
      (hashToken (generateOpaqueTokenString entropy)) (now + s.refreshTokenExpiration) hfresh1
    refine ⟨⟨(GenerateAccessToken s hmacF (some u) now).toOption.getD .malformed,
      generateOpaqueTokenString entropy⟩,
      ⟨st.users, st.tokens.filter (fun r => !decide (r.tokenHash = hashToken t))
        ++ [⟨u.ID, hashToken (generateOpaqueTokenString entropy),
          now + s.refreshTokenExpiration⟩]⟩, ?_, rfl, rfl, rfl⟩
    simp [ProcessRefreshToken, ht, hv, DeleteRefreshTokenByHash, GenerateAccessToken, hsave,
      Except.toOption]

/-- C9: `hashToken` is a deterministic pure function — equal inputs give
equal hashes — and consequently the hash stored by `LoginUser` for an opaque
token equals the hash `ProcessRefreshToken` computes when the same token is
later presented: after a successful login, a rotation presenting the returned
raw token (before its stored expiry, with fresh entropy) succeeds. -/
theorem hashToken_deterministic_rotation :
    (∀ t1 t2 : String, t1 = t2 → hashToken t1 = hashToken t2) ∧
    (∀ (s : AuthService) (hmacF : HmacFun) (bcryptCheck : BcryptCheck) (st : DBState)
       (input : LoginUserInput) (now now2 : Nat) (e1 e2 : List Nat) (u : User),
      ¬ input.Email = "" → ¬ input.Password = "" →
      st.users.find? (fun v => decide (v.Email = input.Email)) = some u →
      bcryptCheck input.Password u.PasswordHash = true →
      e1 ≠ [] →
      now2 < now + s.refreshTokenExpiration →
      (∀ r ∈ st.tokens, ¬ r.tokenHash = hashToken (generateOpaqueTokenString e1)) →
      (∀ r ∈ st.tokens, ¬ r.tokenHash = hashToken (generateOpaqueTokenString e2)) →
      ∃ resp st2 resp2 st3,
        LoginUser s hmacF bcryptCheck st input now e1 none none = .ok (resp, st2) ∧
        ProcessRefreshToken s hmacF st2 resp.RefreshToken now2 e2 none none none
          = .ok (resp2, st3)) := by
  constructor
  · intro t1 t2 h
    rw [h]
  · intro s hmacF bcryptCheck st input now now2 e1 e2 u he hp hfind hbc he1 hlt hfresh1 hfresh2
    have hsave1 := SaveRefreshToken_ok st.tokens u.ID
      (hashToken (generateOpaqueTokenString e1)) (now + s.refreshTokenExpiration) hfresh1
    have hfindTok : (st.tokens ++ [(⟨u.ID, hashToken (generateOpaqueTokenString e1),
        now + s.refreshTokenExpiration⟩ : RefreshTokenRec)]).find?
        (fun r => decide (r.tokenHash = hashToken (generateOpaqueTokenString e1)) &&
          decide (now2 < r.expiresAt))
        = some ⟨u.ID, hashToken (generateOpaqueTokenString e1),
            now + s.refreshTokenExpiration⟩ := by
      rw [List.find?_append]
      have hnone : st.tokens.find?
          (fun r => decide (r.tokenHash = hashToken (generateOpaqueTokenString e1)) &&
            decide (now2 < r.expiresAt)) = none := by
        rw [List.find?_eq_none]
        intro r hr
        simp [hfresh1 r hr]
      rw [hnone]
      simp [List.find?, hlt]
    obtain ⟨u2, hu2⟩ : ∃ u2, st.users.find? (fun v => decide (v.ID = u.ID)) = some u2 := by
      have hisSome : (st.users.find? (fun v => decide (v.ID = u.ID))).isSome := by
        rw [List.find?_isSome]
        exact ⟨u, List.mem_of_find?_eq_some hfind, by simp⟩
      exact Option.isSome_iff_exists.mp hisSome
    have hval : ValidateAndFetchUserByTokenHash
        (st.tokens ++ [⟨u.ID, hashToken (generateOpaqueTokenString e1),
          now + s.refreshTokenExpiration⟩]) st.users
        (hashToken (generateOpaqueTokenString e1)) now2 none = .ok u2 := by
      simp [ValidateAndFetchUserByTokenHash, hfindTok, hu2]
    have hfilter : (st.tokens ++ [(⟨u.ID, hashToken (generateOpaqueTokenString e1),
        now + s.refreshTokenExpiration⟩ : RefreshTokenRec)]).filter
        (fun r => !decide (r.tokenHash = hashToken (generateOpaqueTokenString e1)))
        = st.tokens.filter
            (fun r => !decide (r.tokenHash = hashToken (generateOpaqueTokenString e1))) := by
      simp [List.filter_append]
    have hfresh2sub : ∀ r ∈ st.tokens.filter
        (fun r => !decide (r.tokenHash = hashToken (generateOpaqueTokenString e1))),
        ¬ r.tokenHash = hashToken (generateOpaqueTokenString e2) := by
      intro r hr
      exact hfresh2 r (List.mem_filter.mp hr).1
    have hsave2 := SaveRefreshToken_ok _ u2.ID
      (hashToken (generateOpaqueTokenString e2)) (now2 + s.refreshTokenExpiration) hfresh2sub
    have hne : ¬ generateOpaqueTokenString e1 = "" := base64urlEncode_ne_empty e1 he1
    refine ⟨⟨(GenerateAccessToken s hmacF (some u) now).toOption.getD .malformed,
      generateOpaqueTokenString e1, ToUserInfoForResponse (some u)⟩,
      ⟨st.users, st.tokens ++ [⟨u.ID, hashToken (generateOpaqueTokenString e1),
        now + s.refreshTokenExpiration⟩]⟩,
      ⟨(GenerateAccessToken s hmacF (some u2) now2).toOption.getD .malformed,
        generateOpaqueTokenString e2⟩,
      ⟨st.users, st.tokens.filter
          (fun r => !decide (r.tokenHash = hashToken (generateOpaqueTokenString e1)))
        ++ [⟨u2.ID, hashToken (generateOpaqueTokenString e2),
          now2 + s.refreshTokenExpiration⟩]⟩, ?_, ?_⟩
    · simp [LoginUser, FindUserByEmailInDB, he, hp, hfind, hbc, GenerateAccessToken, hsave1,
        Except.toOption]
    · simp [ProcessRefreshToken, hne, hval, DeleteRefreshTokenByHash, hfilter,
        GenerateAccessToken, hsave2, Except.toOption]

/-! ## Concrete instances used by the witness theorems -/

def svc0 : AuthService := ⟨"test-secret", 10, 100⟩

def hmac0 : HmacFun := fun _ key _ => key

def bcryptYes : BcryptCheck := fun _ _ => true

def bcryptNo : BcryptCheck := fun _ _ => false

def user0 : User := ⟨1, "alice@example.com", "digest", 0, 0⟩

def rec0 : RefreshTokenRec := ⟨1, hashToken "tok", 5⟩

def st0 : DBState := ⟨[user0], [rec0]⟩

def claimsA : JWTCustomClaims := ⟨1, "a", some 5, some 0, some 0, "PaperTradingApp", "1"⟩

def claimsB : JWTCustomClaims := ⟨1, "a", some 10, some 0, some 3, "PaperTradingApp", "1"⟩

/-- Witness for C1 at a concrete store, token, and entropy. -/
theorem refresh_rotation_single_use_witness :
    ∃ resp st2,
      ProcessRefreshToken svc0 hmac0 st0 "tok" 0 [1] none none none = .ok (resp, st2) ∧
      ProcessRefreshToken svc0 hmac0 st2 "tok" 7 [2] none none none
        = .error .ErrInvalidToken := by
  obtain ⟨resp, st2, h1, _, h3⟩ :=
    refresh_rotation_single_use svc0 hmac0 st0 "tok" 0 [1] user0 (by decide) rfl (by decide)
  exact ⟨resp, st2, h1, h3 7 [2] none none none⟩

/-- Witness for C3 at a concrete store: a missing email and a failing
password check produce the same error value. -/
theorem login_failure_indistinguishable_witness :
    LoginUser svc0 hmac0 bcryptNo ⟨[], []⟩ ⟨"alice@example.com", "pw"⟩ 0 [] none none
      = .error .ErrInvalidCredentials ∧
    LoginUser svc0 hmac0 bcryptNo st0 ⟨"alice@example.com", "pw"⟩ 0 [] none none
      = .error .ErrInvalidCredentials := by
  refine ⟨?_, ?_⟩
  · exact (login_failure_indistinguishable svc0 hmac0 bcryptNo ⟨[], []⟩
      ⟨"alice@example.com", "pw"⟩ 0 [] none (by decide) (by decide)).1 rfl
  · exact (login_failure_indistinguishable svc0 hmac0 bcryptNo st0
      ⟨"alice@example.com", "pw"⟩ 0 [] none (by decide) (by decide)).2 user0 rfl rfl

/-- Witness for C5 at a concrete store: a failing delete is survived, a
failing save is fatal. -/
theorem refresh_delete_nonfatal_save_fatal_witness :
    (∃ resp st2,
      ProcessRefreshToken svc0 hmac0 st0 "tok" 0 [1] none (some .otherDBErr) none
        = .ok (resp, st2) ∧
      resp.RefreshToken = generateOpaqueTokenString [1]) ∧
    (∃ err,
      ProcessRefreshToken svc0 hmac0 st0 "tok" 0 [1] none none (some .otherDBErr)
        = .error err) := by
  obtain ⟨h1, h2⟩ := refresh_delete_nonfatal_save_fatal svc0 hmac0 st0 "tok" 0 [1] user0
    .otherDBErr .otherDBErr (by decide) rfl (by decide)
  exact ⟨h1, h2 none⟩

/-- Witness for C6 at concrete tokens: a non-HMAC method is rejected as
invalid, an expired token is reported expired, a premature token is reported
not yet valid. -/
theorem ValidateToken_error_partition_witness :
    ValidateToken svc0 hmac0 (.signed .RS256 claimsA "test-secret") 3
      = .error .ErrInvalidToken ∧
    ValidateToken svc0 hmac0 (.signed .HS256 claimsA "test-secret") 7
      = .error .ErrTokenExpired ∧
    ValidateToken svc0 hmac0 (.signed .HS256 claimsB "test-secret") 2
      = .error .ErrTokenNotValidYet := by
  obtain ⟨_, hnonhmac, _, hexp, hnbf, _⟩ := ValidateToken_error_partition svc0 hmac0
  refine ⟨hnonhmac .RS256 claimsA "test-secret" 3 rfl, ?_, ?_⟩
  · exact hexp .HS256 claimsA "test-secret" 7 5 rfl rfl rfl (by decide)
  · refine hnbf .HS256 claimsB "test-secret" 2 3 rfl rfl ?_ rfl (by decide)
    intro exp hexp2
    simp [claimsB] at hexp2
    omega

/-- Witness for C7 at a concrete user and instants. -/
theorem accessToken_roundtrip_witness :
    ∃ claims sig,
      GenerateAccessToken svc0 hmac0 (some user0) 0 = .ok (.signed .HS256 claims sig) ∧
      claims.UserID = user0.ID ∧ claims.Email = user0.Email ∧
      claims.IssuedAt = some 0 ∧ claims.NotBefore = some 0 ∧
      claims.ExpiresAt = some (0 + svc0.jwtExpiration) ∧
      claims.Issuer = "PaperTradingApp" ∧ claims.Subject = toString user0.ID ∧
      (3 < 0 + svc0.jwtExpiration →
        ValidateToken svc0 hmac0 (.signed .HS256 claims sig) 3 = .ok claims) ∧
      (0 + svc0.jwtExpiration ≤ 3 →
        ValidateToken svc0 hmac0 (.signed .HS256 claims sig) 3
          = .error .ErrTokenExpired) :=
  accessToken_roundtrip svc0 hmac0 user0 0 3 (by decide)

/-- Witness for C2 at a concrete store, login input, and 32 bytes of
entropy. -/
theorem refreshToken_stored_only_hashed_witness :
    (∃ resp st2,
      LoginUser svc0 hmac0 bcryptYes ⟨[user0], []⟩ ⟨"alice@example.com", "pw"⟩ 0
        (List.replicate 32 0) none none = .ok (resp, st2) ∧
      resp.RefreshToken = generateOpaqueTokenString (List.replicate 32 0) ∧
      st2.users = [user0] ∧
      st2.tokens = [] ++ [⟨user0.ID, hashToken resp.RefreshToken,
        0 + svc0.refreshTokenExpiration⟩]) ∧
    (∃ resp st2,
      ProcessRefreshToken svc0 hmac0 st0 "tok" 0 (List.replicate 32 0) none none none
        = .ok (resp, st2) ∧
      resp.RefreshToken = generateOpaqueTokenString (List.replicate 32 0) ∧
      st2.users = st0.users ∧
      st2.tokens = st0.tokens.filter (fun r => !decide (r.tokenHash = hashToken "tok"))
        ++ [⟨user0.ID, hashToken resp.RefreshToken, 0 + svc0.refreshTokenExpiration⟩]) := by
  have hlogin := refreshToken_stored_only_hashed.1 svc0 hmac0 bcryptYes ⟨[user0], []⟩
    ⟨"alice@example.com", "pw"⟩ 0 (List.replicate 32 0) user0
    (by decide) (by decide) rfl rfl rfl (by decide)
  have hrefresh := refreshToken_stored_only_hashed.2 svc0 hmac0 st0 "tok" 0
    (List.replicate 32 0) user0 (by decide) rfl rfl (by decide)
  exact ⟨hlogin, hrefresh⟩

/-- Witness for C9 at a concrete store: login then rotate with the returned
token succeeds. -/
theorem hashToken_deterministic_rotation_witness :
    hashToken "tok" = hashToken "tok" ∧
    (∃ resp st2 resp2 st3,
      LoginUser svc0 hmac0 bcryptYes ⟨[user0], []⟩ ⟨"alice@example.com", "pw"⟩ 0 [1]
        none none = .ok (resp, st2) ∧
      ProcessRefreshToken svc0 hmac0 st2 resp.RefreshToken 7 [2] none none none
        = .ok (resp2, st3)) := by
  refine ⟨hashToken_deterministic_rotation.1 "tok" "tok" rfl, ?_⟩
  exact hashToken_deterministic_rotation.2 svc0 hmac0 bcryptYes ⟨[user0], []⟩
    ⟨"alice@example.com", "pw"⟩ 0 7 [1] [2] user0
    (by decide) (by decide) rfl rfl (by decide) (by decide) (by decide) (by decide)

end Auth
